import Mathlib

/-!
Shallow embedding of the register-synchronization service of this
repository:

* `src/server/var_table.py` — class `VarTable` (the register table),
* `src/server/main.py` — `AsyncServer.handle_client` (the per-connection
  protocol handler),
* `src/web/Communication.py` and `src/Visual_ob/Communication.py` — the
  client-side transaction helpers `read_var` / `write_var` / `_txn`.

Bytes are modelled as `Nat` (each in `[0,256)`), Python integers as `Int`,
Python exceptions as `Except String`.  The `struct` module's pack/unpack
with format `'!BBHI'` is modelled exactly, including its rejection (not
truncation) of out-of-range arguments.
-/

deriving instance DecidableEq for Except

/-! ## Byte-level codec: struct.pack / struct.unpack_from with '!BBHI' -/

/-- Byte `i` of a byte list (only used at in-bounds offsets, as in the
handler which guards `offset + 8 <= len(data)`). -/
def byteAt (data : List Nat) (i : Nat) : Nat := data.getD i 0

/-- `struct.unpack_from('!BB', data, off)`: the two bytes at `off`. -/
def unpackBB (data : List Nat) (off : Nat) : Nat × Nat :=
  (byteAt data off, byteAt data (off + 1))

/-- `struct.unpack_from('!BBHI', data, off)`: command byte, index byte,
big-endian 16-bit reserved field, big-endian 32-bit value. -/
def unpackBBHI (data : List Nat) (off : Nat) : Nat × Nat × Nat × Nat :=
  (byteAt data off, byteAt data (off + 1),
   byteAt data (off + 2) * 256 + byteAt data (off + 3),
   byteAt data (off + 4) * 16777216 + byteAt data (off + 5) * 65536 +
     byteAt data (off + 6) * 256 + byteAt data (off + 7))

/-- `struct.pack('!BBHI', cmd, idx, r, v)`.  CPython raises `struct.error`
when an argument does not fit its field; it never truncates. -/
def structPackBBHI (cmd idx r v : Int) : Except String (List Nat) :=
  if 0 ≤ cmd ∧ cmd ≤ 255 then
    if 0 ≤ idx ∧ idx ≤ 255 then
      if 0 ≤ r ∧ r ≤ 65535 then
        if 0 ≤ v ∧ v ≤ 4294967295 then
          .ok [cmd.toNat, idx.toNat,
               r.toNat / 256, r.toNat % 256,
               v.toNat / 16777216, v.toNat / 65536 % 256,
               v.toNat / 256 % 256, v.toNat % 256]
        else .error "struct.error: 'I' format requires 0 <= number <= 4294967295"
      else .error "struct.error: 'H' format requires 0 <= number <= 65535"
    else .error "struct.error: ubyte format requires 0 <= number <= 255"
  else .error "struct.error: ubyte format requires 0 <= number <= 255"

/-- Specification-side description of the 8-byte big-endian frame layout
(`command:uint8, index:uint8, reserved:uint16, value:uint32`), used to
state theorems about what `structPackBBHI` produces. -/
def mkFrame (cmd idx r v : Nat) : List Nat :=
  [cmd, idx, r / 256, r % 256,
   v / 16777216, v / 65536 % 256, v / 256 % 256, v % 256]

/-! ## VarTable (src/server/var_table.py) -/

/-- Events emitted by one sequential call of `VarTable.set`, recording the
order of lock operations, the committed write, and the `on_change`
callback. -/
inductive Ev where
  | acquire : Ev
  | release : Ev
  | write (idx val : Int) : Ev
  | callback (idx val : Int) : Ev
deriving DecidableEq

/-- `VarTable`: `_vals` is the Python list of register values, and
`onChangeSet` records whether the optional `on_change` hook is set
(`self.on_change = None` initially).  `self._size` always equals
`len(self._vals)` (both are set from the constructor argument). -/
structure VarTable where
  vals : List Int
  onChangeSet : Bool
deriving DecidableEq

/-- `VarTable.__init__(size)`: `self._vals = [0] * size`, no hook. -/
def VarTable.init (size : Nat) : VarTable :=
  { vals := List.replicate size 0, onChangeSet := false }

def VarTable.size (t : VarTable) : Nat := t.vals.length

/-- Python list subscription `l[i]`: indices in `[0, len)` read directly,
indices in `[-len, 0)` alias `l[len + i]`, anything else raises
`IndexError`. -/
def pyIndex (l : List Int) (i : Int) : Except String Int :=
  let j : Int := if i < 0 then i + l.length else i
  if 0 ≤ j ∧ j < (l.length : Int) then .ok (l.getD j.toNat 0)
  else .error "IndexError: list index out of range"

/-- `VarTable.get(idx)`: `return self._vals[idx]` — no bounds check of its
own, so it inherits Python list-subscription semantics. -/
def VarTable.get (t : VarTable) (idx : Int) : Except String Int :=
  pyIndex t.vals idx

/-- `VarTable.set(idx, val)`: bounds check (raise `IndexError` when
`not 0 <= idx < self._size`), equal-value fast path returning with no
write, otherwise write under the lock and invoke `on_change` (if set)
after the lock is released.  The event list records the order. -/
def VarTable.set (t : VarTable) (idx val : Int) :
    Except String (VarTable × List Ev) :=
  if 0 ≤ idx ∧ idx < (t.vals.length : Int) then
    if t.vals.getD idx.toNat 0 = val then
      .ok (t, [])
    else
      .ok ({ t with vals := t.vals.set idx.toNat val },
           [Ev.acquire, Ev.write idx val, Ev.release] ++
             (if t.onChangeSet then [Ev.callback idx val] else []))
  else .error "IndexError: Index out of range"

/-- `VarTable.set` with the event trace discarded (how the server handler
uses it). -/
def VarTable.setE (t : VarTable) (idx val : Int) : Except String VarTable :=
  (t.set idx val).map Prod.fst

/-- `VarTable.encode_change(idx, val)`:
`struct.pack('!BBHI', 0x30, idx, 0, val)`. -/
def VarTable.encode_change (idx val : Int) : Except String (List Nat) :=
  structPackBBHI 48 idx 0 val

/-! ## Server connection handler (src/server/main.py, AsyncServer.handle_client)

The coroutine reads chunks (`data = await reader.read(4096)`) and, for each
chunk, walks complete 8-byte frames with
`while offset + FRAME_SIZE <= len(data)`; any trailing bytes of the chunk
are simply abandoned when the inner loop ends.  An exception (for instance
the `IndexError` from `VarTable`) propagates out of the loops and tears the
connection down via the `finally` block, with no reply sent. -/

/-- Result of handling one 8-byte frame in the handler's inner loop. -/
inductive StepR where
  | close : StepR
  | err (msg : String) : StepR
  | cont (t : VarTable) (replies : List (List Nat)) : StepR
deriving DecidableEq

/-- Connection status after the handler has consumed its input. -/
inductive HStatus where
  | awaiting : HStatus
  | closed : HStatus
  | errored (msg : String) : HStatus
deriving DecidableEq

/-- One iteration of the inner loop of `AsyncServer.handle_client` on the
8 bytes at the current offset: dispatch on the command byte (0x40 read
request, 0x42 read confirm, 0x50 write request, 0x52 write data, anything
else ignored). -/
def stepFrame (t : VarTable) (f : List Nat) : StepR :=
  let p := unpackBB f 0
  let cmd := p.1
  let idx := p.2
  if cmd = 64 then
    match t.get (idx : Int) with
    | .error e => .err e
    | .ok v =>
      match structPackBBHI 65 (idx : Int) 0 v with
      | .error e => .err e
      | .ok reply => .cont t [reply]
  else if cmd = 66 then .close
  else if cmd = 80 then
    match structPackBBHI 81 (idx : Int) 0 0 with
    | .error e => .err e
    | .ok reply => .cont t [reply]
  else if cmd = 82 then
    let q := unpackBBHI f 0
    match t.setE (q.2.1 : Int) (q.2.2.2 : Int) with
    | .error e => .err e
    | .ok t1 =>
      match structPackBBHI 83 (q.2.1 : Int) 0 0 with
      | .error e => .err e
      | .ok reply => .cont t1 [reply]
  else .cont t []

/-- The inner `while offset + 8 <= len(data)` loop over one received chunk:
returns the table after the chunk, the reply frames written (in order), and
the connection status.  Trailing bytes (fewer than 8) are not processed and
not kept. -/
def processChunk (t : VarTable) : List Nat → VarTable × List (List Nat) × HStatus
  | b0 :: b1 :: b2 :: b3 :: b4 :: b5 :: b6 :: b7 :: rest =>
    match stepFrame t [b0, b1, b2, b3, b4, b5, b6, b7] with
    | .close => (t, [], .closed)
    | .err e => (t, [], .errored e)
    | .cont t1 rs =>
      let r := processChunk t1 rest
      (r.1, rs ++ r.2.1, r.2.2)
  | _ => (t, [], .awaiting)

/-- Reference recursion over a list of already-split 8-byte frames, used to
state that the handler serves every complete frame of a chunk in
left-to-right order. -/
def runFrames (t : VarTable) : List (List Nat) → VarTable × List (List Nat) × HStatus
  | [] => (t, [], .awaiting)
  | f :: fs =>
    match stepFrame t f with
    | .close => (t, [], .closed)
    | .err e => (t, [], .errored e)
    | .cont t1 rs =>
      let r := runFrames t1 fs
      (r.1, rs ++ r.2.1, r.2.2)

/-- The outer `while True: data = await reader.read(4096)` loop of
`AsyncServer.handle_client`, fed the successive chunks the socket
delivers; an empty read means the peer closed (`if not data: break`). -/
def handleClient (t : VarTable) : List (List Nat) → VarTable × List (List Nat) × HStatus
  | [] => (t, [], .closed)
  | c :: cs =>
    if c.isEmpty then (t, [], .closed)
    else
      match processChunk t c with
      | (t1, rs1, .awaiting) =>
        let r := handleClient t1 cs
        (r.1, rs1 ++ r.2.1, r.2.2)
      | (t1, rs1, st) => (t1, rs1, st)

/-! ## Transaction clients

`src/web/Communication.py` and `src/Visual_ob/Communication.py`.  The
network is modelled as a list of per-dial outcomes: each time the client
opens a connection and performs one send/receive exchange it consumes the
next `Dial`; `Dial.fail` is any connection/timeout/short-read failure and
`Dial.reply b` is a completed exchange whose 8-byte reply is `b`.  An
exhausted list behaves like an unreachable server (every further dial
fails). -/

inductive Dial where
  | fail : Dial
  | reply (bytes : List Nat) : Dial
deriving DecidableEq

/-- Default `retry_max` from the configuration of both client modules. -/
def RETRY_MAX : Nat := 5

/-- The retry loop inside `_txn` of `src/web/Communication.py`:
`for attempt in range(RETRY_MAX)` around one connect/send/recv, every
exception caught; returns the reply bytes, or `[]` (Python `b''`) after
all attempts fail. -/
def txnGo : Nat → List Dial → List Nat × List Dial
  | 0, ds => ([], ds)
  | _ + 1, [] => ([], [])
  | n + 1, Dial.fail :: ds => txnGo n ds
  | _ + 1, Dial.reply b :: ds => (b, ds)

/-- `_txn(req, 8)` of `src/web/Communication.py`. -/
def webTxn (ds : List Dial) : List Nat × List Dial := txnGo RETRY_MAX ds

/-- `_txn(req, 8)` of `src/Visual_ob/Communication.py`: a single attempt,
every exception caught, `b''` on failure. -/
def visualTxn : List Dial → List Nat × List Dial
  | [] => ([], [])
  | Dial.fail :: ds => ([], ds)
  | Dial.reply b :: ds => (b, ds)

/-- `read_var(idx)` of `src/web/Communication.py`: one single dial (no
retry loop), the whole body inside `try: ... except: return -1`; checks
only that the reply command is 0x41 and returns the reply's value field.
The `struct.pack` of the request raises inside the `try` when `idx` does
not fit a byte, hence also yields `-1`. -/
def webReadVar (ds : List Dial) (idx : Int) : Int :=
  if 0 ≤ idx ∧ idx ≤ 255 then
    match ds with
    | [] => -1
    | Dial.fail :: _ => -1
    | Dial.reply b :: _ =>
      let q := unpackBBHI b 0
      if q.1 = 65 then (q.2.2.2 : Int) else -1
  else -1

/-- `read_var(idx)` of `src/Visual_ob/Communication.py`: no exception
handler at all — connection failures and the `assert cmd == 0x41`
propagate to the caller. -/
def visualReadVar (d : Dial) (idx : Int) : Except String Int :=
  if 0 ≤ idx ∧ idx ≤ 255 then
    match d with
    | Dial.fail => .error "ConnectionError"
    | Dial.reply b =>
      let q := unpackBBHI b 0
      if q.1 = 65 then .ok (q.2.2.2 : Int) else .error "AssertionError"
  else .error "struct.error: ubyte format requires 0 <= number <= 255"

/-- The `for attempt in range(RETRY_MAX)` loop of `write_var` in
`src/web/Communication.py`: send WRITE_REQ via `_txn`, require an 8-byte
0x51 reply, then send WRITE_DATA via `_txn` and require an 8-byte 0x53
reply; any mismatch falls through to the next attempt.  The
`struct.pack` calls are outside any `try`, so an out-of-byte-range `idx`
(or out-of-uint32 `val`, once the 0x51 reply is seen) raises to the
caller. -/
def webWriteVarGo (idx val : Int) : Nat → List Dial → Except String (Bool × List Dial)
  | 0, ds => .ok (false, ds)
  | n + 1, ds =>
    if 0 ≤ idx ∧ idx ≤ 255 then
      let r := webTxn ds
      if r.1.length = 8 ∧ (unpackBB r.1 0).1 = 81 then
        if 0 ≤ val ∧ val ≤ 4294967295 then
          let w := webTxn r.2
          if w.1.length = 8 ∧ (unpackBB w.1 0).1 = 83 then .ok (true, w.2)
          else webWriteVarGo idx val n w.2
        else .error "struct.error: 'I' format requires 0 <= number <= 4294967295"
      else webWriteVarGo idx val n r.2
    else .error "struct.error: ubyte format requires 0 <= number <= 255"

/-- `write_var(idx, val)` of `src/web/Communication.py`. -/
def webWriteVar (idx val : Int) (ds : List Dial) : Except String (Bool × List Dial) :=
  webWriteVarGo idx val RETRY_MAX ds

/-- The retry loop of `write_var` in `src/Visual_ob/Communication.py`:
the same four-step handshake, but the function is annotated `-> None` and
every `return` is bare — it produces no boolean.  The result `none`
models Python's `None` (the value actually returned on every path),
`some b` would model returning a boolean `b`. -/
def visualWriteVarGo (idx val : Int) : Nat → List Dial → Except String (Option Bool × List Dial)
  | 0, ds => .ok (none, ds)
  | n + 1, ds =>
    if 0 ≤ idx ∧ idx ≤ 255 then
      let r := visualTxn ds
      if r.1.length = 8 ∧ (unpackBB r.1 0).1 = 81 then
        if 0 ≤ val ∧ val ≤ 4294967295 then
          let w := visualTxn r.2
          if w.1.length = 8 ∧ (unpackBB w.1 0).1 = 83 then .ok (none, w.2)
          else visualWriteVarGo idx val n w.2
        else .error "struct.error: 'I' format requires 0 <= number <= 4294967295"
      else visualWriteVarGo idx val n r.2
    else .error "struct.error: ubyte format requires 0 <= number <= 255"

/-- `write_var(idx, val)` of `src/Visual_ob/Communication.py`. -/
def visualWriteVar (idx val : Int) (ds : List Dial) : Except String (Option Bool × List Dial) :=
  visualWriteVarGo idx val RETRY_MAX ds

example : VarTable.get (VarTable.init 3) 1 = .ok 0 := by decide
example : VarTable.get (VarTable.init 3) 3 =
    .error "IndexError: list index out of range" := by decide
example : VarTable.get { vals := [1, 2, 3], onChangeSet := false } (-1) = .ok 3 := by
  decide
example : structPackBBHI 48 2 0 5 = .ok (mkFrame 48 2 0 5) := by decide
example : (VarTable.init 3).set 1 7 =
    .ok ({ vals := [0, 7, 0], onChangeSet := false }, [Ev.acquire, Ev.write 1 7, Ev.release]) := by
  decide
example : processChunk (VarTable.init 5) (mkFrame 64 3 0 0) =
    (VarTable.init 5, [mkFrame 65 3 0 0], .awaiting) := by decide
example : processChunk (VarTable.init 5) (mkFrame 64 7 0 0) =
    (VarTable.init 5, [], .errored "IndexError: list index out of range") := by decide
example : processChunk (VarTable.init 5) (mkFrame 82 3 0 7 ++ mkFrame 64 3 0 0) =
    ({ vals := [0, 0, 0, 7, 0], onChangeSet := false },
     [mkFrame 83 3 0 0, mkFrame 65 3 0 7], .awaiting) := by decide
example : handleClient (VarTable.init 5) [[64, 3, 0], [0, 0, 0, 0, 0]] =
    (VarTable.init 5, [], .closed) := by decide
example : webReadVar [Dial.reply (mkFrame 65 3 0 7)] 3 = 7 := by decide
example : webReadVar [Dial.fail, Dial.reply (mkFrame 65 3 0 7)] 3 = -1 := by decide
example : visualReadVar Dial.fail 3 = .error "ConnectionError" := by decide
example : webWriteVar 3 7 [Dial.reply (mkFrame 81 3 0 0), Dial.reply (mkFrame 83 3 0 0)] =
    .ok (true, []) := by decide
example : webWriteVar 3 7 [] = .ok (false, []) := by decide
example : visualWriteVar 3 7 [Dial.reply (mkFrame 81 3 0 0), Dial.reply (mkFrame 83 3 0 0)] =
    .ok (none, []) := by decide

/-! ## Generic lemmas about the embedding -/

theorem processChunk_short (t : VarTable) (l : List Nat) (h : l.length < 8) :
    processChunk t l = (t, [], .awaiting) := by
  rcases l with _ | ⟨b0, l⟩
  · rfl
  rcases l with _ | ⟨b1, l⟩
  · rfl
  rcases l with _ | ⟨b2, l⟩
  · rfl
  rcases l with _ | ⟨b3, l⟩
  · rfl
  rcases l with _ | ⟨b4, l⟩
  · rfl
  rcases l with _ | ⟨b5, l⟩
  · rfl
  rcases l with _ | ⟨b6, l⟩
  · rfl
  rcases l with _ | ⟨b7, l⟩
  · rfl
  simp at h
  omega

theorem structPackBBHI_ok (cmd idx r v : Nat) (h1 : cmd ≤ 255) (h2 : idx ≤ 255)
    (h3 : r ≤ 65535) (h4 : v ≤ 4294967295) :
    structPackBBHI cmd idx r v = .ok (mkFrame cmd idx r v) := by
  have c1 : (0 : Int) ≤ cmd ∧ (cmd : Int) ≤ 255 := ⟨Int.natCast_nonneg _, by exact_mod_cast h1⟩
  have c2 : (0 : Int) ≤ idx ∧ (idx : Int) ≤ 255 := ⟨Int.natCast_nonneg _, by exact_mod_cast h2⟩
  have c3 : (0 : Int) ≤ r ∧ (r : Int) ≤ 65535 := ⟨Int.natCast_nonneg _, by exact_mod_cast h3⟩
  have c4 : (0 : Int) ≤ v ∧ (v : Int) ≤ 4294967295 :=
    ⟨Int.natCast_nonneg _, by exact_mod_cast h4⟩
  simp [structPackBBHI, mkFrame, c1, c2, c3, c4]

theorem unpackBBHI_mkFrame (cmd idx r v : Nat) :
    unpackBBHI (mkFrame cmd idx r v) 0 = (cmd, idx, r, v) := by
  simp [unpackBBHI, mkFrame, byteAt]
  omega

theorem get_in_range (t : VarTable) (idx : Nat) (h : idx < t.vals.length) :
    t.get idx = .ok (t.vals.getD idx 0) := by
  have h1 : ¬ ((idx : Int) < 0) := by simp
  have h2 : (0 : Int) ≤ (idx : Int) ∧ (idx : Int) < (t.vals.length : Int) :=
    ⟨Int.natCast_nonneg _, by exact_mod_cast h⟩
  simp [VarTable.get, pyIndex, h1, h2]

theorem get_oob (t : VarTable) (idx : Int)
    (h : (t.vals.length : Int) ≤ idx ∨ idx < -(t.vals.length : Int)) :
    t.get idx = .error "IndexError: list index out of range" := by
  simp only [VarTable.get, pyIndex]
  rcases h with h | h <;> split_ifs <;> first | rfl | omega

theorem get_alias (t : VarTable) (idx : Int)
    (h1 : -(t.vals.length : Int) ≤ idx) (h2 : idx < 0) :
    t.get idx = t.get (idx + t.vals.length) := by
  simp only [VarTable.get, pyIndex]
  have hn : ¬ (idx + (t.vals.length : Int) < 0) := by omega
  simp [h2, hn]

theorem set_oob (t : VarTable) (idx val : Int)
    (h : idx < 0 ∨ (t.vals.length : Int) ≤ idx) :
    t.set idx val = .error "IndexError: Index out of range" := by
  have hc : ¬ (0 ≤ idx ∧ idx < (t.vals.length : Int)) := by omega
  simp [VarTable.set, hc]

theorem set_fast_path (t : VarTable) (idx val : Int)
    (h1 : 0 ≤ idx) (h2 : idx < (t.vals.length : Int))
    (he : t.vals.getD idx.toNat 0 = val) :
    t.set idx val = .ok (t, []) := by
  rw [VarTable.set, if_pos ⟨h1, h2⟩, if_pos he]

theorem set_changed (t : VarTable) (idx val : Int)
    (h1 : 0 ≤ idx) (h2 : idx < (t.vals.length : Int))
    (he : t.vals.getD idx.toNat 0 ≠ val) :
    t.set idx val =
      .ok ({ t with vals := t.vals.set idx.toNat val },
           [Ev.acquire, Ev.write idx val, Ev.release] ++
             (if t.onChangeSet then [Ev.callback idx val] else [])) := by
  rw [VarTable.set, if_pos ⟨h1, h2⟩, if_neg he]

theorem setE_get_roundtrip (t : VarTable) (idx : Nat) (val : Int)
    (h : idx < t.vals.length) :
    (t.setE idx val).bind (fun t2 => t2.get idx) = .ok val := by
  have hnat : ((idx : Int)).toNat = idx := Int.toNat_natCast idx
  rcases eq_or_ne (t.vals.getD idx 0) val with he | he
  · rw [VarTable.setE, set_fast_path t idx val (Int.natCast_nonneg _)
      (by exact_mod_cast h) (by rw [hnat]; exact he)]
    simp only [Except.map, Except.bind]
    rw [get_in_range t idx h, he]
  · rw [VarTable.setE, set_changed t idx val (Int.natCast_nonneg _)
      (by exact_mod_cast h) (by rw [hnat]; exact he)]
    simp only [Except.map, Except.bind]
    have hlen2 : idx < (t.vals.set ((idx : Int)).toNat val).length := by
      rw [hnat]; simpa using h
    rw [get_in_range { t with vals := t.vals.set ((idx : Int)).toNat val } idx hlen2]
    rw [hnat, List.getD_eq_getElem _ _ (by simpa using hlen2)]
    simp [h]

theorem processChunk_cons8 (t : VarTable) (b0 b1 b2 b3 b4 b5 b6 b7 : Nat) (rest : List Nat) :
    processChunk t (b0 :: b1 :: b2 :: b3 :: b4 :: b5 :: b6 :: b7 :: rest) =
      match stepFrame t [b0, b1, b2, b3, b4, b5, b6, b7] with
      | .close => (t, [], .closed)
      | .err e => (t, [], .errored e)
      | .cont t1 rs =>
        let r := processChunk t1 rest
        (r.1, rs ++ r.2.1, r.2.2) := rfl

theorem stepFrame_confirm (t : VarTable) (b1 b2 b3 b4 b5 b6 b7 : Nat) :
    stepFrame t [66, b1, b2, b3, b4, b5, b6, b7] = .close := by
  simp [stepFrame, unpackBB, byteAt]

theorem stepFrame_other (t : VarTable) (cmd b1 b2 b3 b4 b5 b6 b7 : Nat)
    (h1 : cmd ≠ 64) (h2 : cmd ≠ 66) (h3 : cmd ≠ 80) (h4 : cmd ≠ 82) :
    stepFrame t [cmd, b1, b2, b3, b4, b5, b6, b7] = .cont t [] := by
  simp [stepFrame, unpackBB, byteAt, h1, h2, h3, h4]

theorem stepFrame_write_req (t : VarTable) (idx b2 b3 b4 b5 b6 b7 : Nat)
    (h : idx ≤ 255) :
    stepFrame t [80, idx, b2, b3, b4, b5, b6, b7] = .cont t [mkFrame 81 idx 0 0] := by
  have hp : structPackBBHI 81 (idx : Int) 0 0 = .ok (mkFrame 81 idx 0 0) := by
    have := structPackBBHI_ok 81 idx 0 0 (by norm_num) h (by norm_num) (by norm_num)
    simpa using this
  simp [stepFrame, unpackBB, byteAt, hp]

theorem stepFrame_read_ok (t : VarTable) (idx b2 b3 b4 b5 b6 b7 w : Nat)
    (hidx : idx < t.vals.length) (hidxb : idx ≤ 255)
    (hw : t.vals.getD idx 0 = (w : Int)) (hwb : w ≤ 4294967295) :
    stepFrame t [64, idx, b2, b3, b4, b5, b6, b7] = .cont t [mkFrame 65 idx 0 w] := by
  have hg : t.get idx = .ok (w : Int) := by rw [get_in_range t idx hidx, hw]
  have hp : structPackBBHI 65 (idx : Int) 0 (w : Int) = .ok (mkFrame 65 idx 0 w) := by
    have := structPackBBHI_ok 65 idx 0 w (by norm_num) hidxb (by norm_num) hwb
    simpa using this
  simp [stepFrame, unpackBB, byteAt, hg, hp]

theorem stepFrame_read_oob (t : VarTable) (idx b2 b3 b4 b5 b6 b7 : Nat)
    (hidx : t.vals.length ≤ idx) :
    stepFrame t [64, idx, b2, b3, b4, b5, b6, b7] =
      .err "IndexError: list index out of range" := by
  have hg : t.get idx = .error "IndexError: list index out of range" :=
    get_oob t idx (by left; exact_mod_cast hidx)
  simp [stepFrame, unpackBB, byteAt, hg]

/-- The table produced by a successful in-range `VarTable.set`: unchanged on
the equal-value fast path, updated otherwise.  Used to state theorems about
the handler, which discards the event trace. -/
def setOutcome (t : VarTable) (idx val : Int) : VarTable :=
  if t.vals.getD idx.toNat 0 = val then t
  else { t with vals := t.vals.set idx.toNat val }

theorem setE_in_range (t : VarTable) (idx val : Int)
    (h1 : 0 ≤ idx) (h2 : idx < (t.vals.length : Int)) :
    t.setE idx val = .ok (setOutcome t idx val) := by
  rcases eq_or_ne (t.vals.getD idx.toNat 0) val with he | he
  · rw [VarTable.setE, set_fast_path t idx val h1 h2 he, setOutcome, if_pos he]
    rfl
  · rw [VarTable.setE, set_changed t idx val h1 h2 he, setOutcome, if_neg he]
    rfl

theorem setOutcome_length (t : VarTable) (idx val : Int) :
    (setOutcome t idx val).vals.length = t.vals.length := by
  rw [setOutcome]
  split_ifs <;> simp

theorem get_setOutcome (t : VarTable) (idx : Nat) (val : Int)
    (h : idx < t.vals.length) :
    (setOutcome t idx val).get idx = .ok val := by
  have h1 := setE_get_roundtrip t idx val h
  rw [setE_in_range t idx val (Int.natCast_nonneg _) (by exact_mod_cast h)] at h1
  simpa [Except.bind] using h1

theorem getD_setOutcome (t : VarTable) (idx : Nat) (val : Int)
    (h : idx < t.vals.length) :
    (setOutcome t idx val).vals.getD idx 0 = val := by
  have h2 : idx < (setOutcome t idx val).vals.length := by
    rw [setOutcome_length]; exact h
  have h3 := get_in_range (setOutcome t idx val) idx h2
  rw [get_setOutcome t idx val h] at h3
  exact (Except.ok.injEq _ _).mp h3.symm

theorem stepFrame_write_data (t : VarTable) (idx v : Nat)
    (hidx : idx < t.vals.length) (hidxb : idx ≤ 255) :
    stepFrame t [82, idx, 0, 0, v / 16777216, v / 65536 % 256, v / 256 % 256, v % 256] =
      .cont (setOutcome t idx v) [mkFrame 83 idx 0 0] := by
  have hu : unpackBBHI [82, idx, 0, 0, v / 16777216, v / 65536 % 256,
      v / 256 % 256, v % 256] 0 = (82, idx, 0, v) := by
    simp [unpackBBHI, byteAt]
    omega
  have hs : VarTable.setE t idx v =
      .ok (setOutcome t idx v) :=
    setE_in_range t idx v (Int.natCast_nonneg _) (by exact_mod_cast hidx)
  have hp : structPackBBHI 83 (idx : Int) 0 0 = .ok (mkFrame 83 idx 0 0) := by
    have := structPackBBHI_ok 83 idx 0 0 (by norm_num) hidxb (by norm_num) (by norm_num)
    simpa using this
  simp [stepFrame, unpackBB, byteAt, hu, hs, hp]

theorem length_eight_form (f : List Nat) (h : f.length = 8) :
    ∃ b0 b1 b2 b3 b4 b5 b6 b7, f = [b0, b1, b2, b3, b4, b5, b6, b7] := by
  rcases f with _ | ⟨b0, f⟩
  · simp at h
  rcases f with _ | ⟨b1, f⟩
  · simp at h
  rcases f with _ | ⟨b2, f⟩
  · simp at h
  rcases f with _ | ⟨b3, f⟩
  · simp at h
  rcases f with _ | ⟨b4, f⟩
  · simp at h
  rcases f with _ | ⟨b5, f⟩
  · simp at h
  rcases f with _ | ⟨b6, f⟩
  · simp at h
  rcases f with _ | ⟨b7, f⟩
  · simp at h
  rcases f with _ | ⟨b8, f⟩
  · exact ⟨b0, b1, b2, b3, b4, b5, b6, b7, rfl⟩
  · simp at h

theorem processChunk_flatten (fs : List (List Nat)) (hf : ∀ f ∈ fs, f.length = 8) :
    ∀ t, processChunk t fs.flatten = runFrames t fs := by
  induction fs with
  | nil => intro t; rfl
  | cons f fs ih =>
    intro t
    obtain ⟨b0, b1, b2, b3, b4, b5, b6, b7, rfl⟩ :=
      length_eight_form f (hf f (by simp))
    have hfs : ∀ g ∈ fs, g.length = 8 := fun g hg => hf g (by simp [hg])
    have hflat : ([b0, b1, b2, b3, b4, b5, b6, b7] :: fs).flatten =
        b0 :: b1 :: b2 :: b3 :: b4 :: b5 :: b6 :: b7 :: fs.flatten := by
      simp
    rw [hflat, processChunk_cons8, runFrames]
    cases stepFrame t [b0, b1, b2, b3, b4, b5, b6, b7] with
    | close => rfl
    | err e => rfl
    | cont t1 rs => simp [ih hfs t1]

theorem processChunk_discard (t : VarTable) (data extra : List Nat)
    (h8 : data.length % 8 = 0) (hx : extra.length < 8) :
    processChunk t (data ++ extra) = processChunk t data := by
  have key : ∀ n (d : List Nat) (t : VarTable), d.length = n → d.length % 8 = 0 →
      processChunk t (d ++ extra) = processChunk t d := by
    intro n
    induction n using Nat.strong_induction_on with
    | _ n ih =>
      intro d t hlen h8d
      rcases d with _ | ⟨b0, d⟩
      · rw [List.nil_append, processChunk_short t extra hx]
        rfl
      rcases d with _ | ⟨b1, d⟩
      · simp at h8d
      rcases d with _ | ⟨b2, d⟩
      · simp at h8d
      rcases d with _ | ⟨b3, d⟩
      · simp at h8d
      rcases d with _ | ⟨b4, d⟩
      · simp at h8d
      rcases d with _ | ⟨b5, d⟩
      · simp at h8d
      rcases d with _ | ⟨b6, d⟩
      · simp at h8d
      rcases d with _ | ⟨b7, d⟩
      · simp at h8d
      simp only [List.length_cons] at hlen h8d
      simp only [List.cons_append]
      rw [processChunk_cons8, processChunk_cons8]
      rcases hstep : stepFrame t [b0, b1, b2, b3, b4, b5, b6, b7] with _ | e | ⟨t1, rs⟩
      · rfl
      · rfl
      · dsimp only
        rw [ih d.length (by omega) d t1 rfl (by omega)]
  exact key data.length data t rfl h8

/-- Whether a dial outcome is an 8-byte WRITE_DONE (0x53) reply. -/
def isDoneReply : Dial → Bool
  | Dial.fail => false
  | Dial.reply b => decide (b.length = 8) && decide ((unpackBB b 0).1 = 83)

theorem txnGo_rest_mem (n : Nat) (ds : List Dial) (d : Dial)
    (hd : d ∈ (txnGo n ds).2) : d ∈ ds := by
  induction n generalizing ds with
  | zero => rw [txnGo] at hd; exact hd
  | succ n ih =>
    rcases ds with _ | ⟨d0, ds⟩
    · rw [txnGo] at hd; exact hd
    rcases d0 with _ | b
    · exact List.mem_cons_of_mem _ (ih ds (by simpa [txnGo] using hd))
    · rw [txnGo] at hd
      exact List.mem_cons_of_mem _ hd

theorem txnGo_result_mem (n : Nat) (ds : List Dial)
    (h : (txnGo n ds).1 ≠ []) : Dial.reply (txnGo n ds).1 ∈ ds := by
  induction n generalizing ds with
  | zero => simp [txnGo] at h
  | succ n ih =>
    rcases ds with _ | ⟨d0, ds⟩
    · simp [txnGo] at h
    rcases d0 with _ | b
    · rw [txnGo] at h ⊢
      exact List.mem_cons_of_mem _ (ih ds h)
    · rw [txnGo]
      exact List.mem_cons_self _ _

theorem txnGo_all_fail (n : Nat) (ds : List Dial)
    (h : ∀ d ∈ ds, d = Dial.fail) : (txnGo n ds).1 = [] := by
  induction n generalizing ds with
  | zero => rfl
  | succ n ih =>
    rcases ds with _ | ⟨d0, ds⟩
    · rfl
    have hd0 : d0 = Dial.fail := h d0 (List.mem_cons_self _ _)
    subst hd0
    rw [txnGo]
    exact ih ds (fun d hd => h d (List.mem_cons_of_mem _ hd))

theorem webWriteVarGo_ok (idx val : Int) (n : Nat) (ds : List Dial)
    (h1 : 0 ≤ idx ∧ idx ≤ 255) (h2 : 0 ≤ val ∧ val ≤ 4294967295) :
    (webWriteVarGo idx val n ds).isOk = true := by
  induction n generalizing ds with
  | zero => rfl
  | succ n ih =>
    simp only [webWriteVarGo, if_pos h1, if_pos h2]
    split_ifs with hr hw
    · rfl
    · exact ih _
    · exact ih _

theorem webWriteVarGo_all_fail (idx val : Int) (n : Nat) (ds : List Dial)
    (h1 : 0 ≤ idx ∧ idx ≤ 255)
    (h : ∀ d ∈ ds, d = Dial.fail) :
    (webWriteVarGo idx val n ds).map Prod.fst = .ok false := by
  induction n generalizing ds with
  | zero => rfl
  | succ n ih =>
    simp only [webWriteVarGo, if_pos h1]
    have hfail : (webTxn ds).1 = [] := txnGo_all_fail RETRY_MAX ds h
    have hc : ¬ ((webTxn ds).1.length = 8 ∧ (unpackBB (webTxn ds).1 0).1 = 81) := by
      rw [hfail]
      simp
    rw [if_neg hc]
    exact ih (webTxn ds).2 (fun d hd => h d (txnGo_rest_mem RETRY_MAX ds d hd))

theorem webWriteVarGo_no_done (idx val : Int) (n : Nat) (ds : List Dial)
    (h : ∀ d ∈ ds, isDoneReply d = false) :
    (webWriteVarGo idx val n ds).map Prod.fst ≠ .ok true := by
  induction n generalizing ds with
  | zero => simp [webWriteVarGo, Except.map]
  | succ n ih =>
    by_cases hidx : 0 ≤ idx ∧ idx ≤ 255
    · simp only [webWriteVarGo, if_pos hidx]
      by_cases hr : (webTxn ds).1.length = 8 ∧ (unpackBB (webTxn ds).1 0).1 = 81
      · rw [if_pos hr]
        by_cases hval : 0 ≤ val ∧ val ≤ 4294967295
        · rw [if_pos hval]
          by_cases hw : (webTxn (webTxn ds).2).1.length = 8 ∧
              (unpackBB (webTxn (webTxn ds).2).1 0).1 = 83
          · exfalso
            have hne : (webTxn (webTxn ds).2).1 ≠ [] := by
              intro h0
              rw [h0] at hw
              simp at hw
            have hmem2 : Dial.reply (webTxn (webTxn ds).2).1 ∈ ds :=
              txnGo_rest_mem RETRY_MAX ds _
                (txnGo_result_mem RETRY_MAX (webTxn ds).2 hne)
            have hid := h _ hmem2
            rw [isDoneReply] at hid
            simp [hw.1, hw.2] at hid
          · rw [if_neg hw]
            exact ih (webTxn (webTxn ds).2).2
              (fun d hd => h d (txnGo_rest_mem RETRY_MAX ds d
                (txnGo_rest_mem RETRY_MAX (webTxn ds).2 d hd)))
        · rw [if_neg hval]
          simp [Except.map]
      · rw [if_neg hr]
        exact ih (webTxn ds).2 (fun d hd => h d (txnGo_rest_mem RETRY_MAX ds d hd))
    · simp only [webWriteVarGo, if_neg hidx]
      simp [Except.map]

theorem unpackBB_mkFrame (cmd idx r v : Nat) :
    unpackBB (mkFrame cmd idx r v) 0 = (cmd, idx) := by
  simp [unpackBB, mkFrame, byteAt]

theorem mkFrame_length (cmd idx r v : Nat) : (mkFrame cmd idx r v).length = 8 := by
  simp [mkFrame]

theorem webTxn_reply (b : List Nat) (ds : List Dial) :
    webTxn (Dial.reply b :: ds) = (b, ds) := rfl

theorem webWriteVarGo_success (idx val : Int) (n : Nat) (b1 b2 : List Nat)
    (ds : List Dial)
    (h1 : 0 ≤ idx ∧ idx ≤ 255) (h2 : 0 ≤ val ∧ val ≤ 4294967295)
    (hb1 : b1.length = 8 ∧ (unpackBB b1 0).1 = 81)
    (hb2 : b2.length = 8 ∧ (unpackBB b2 0).1 = 83) :
    webWriteVarGo idx val (n + 1) (Dial.reply b1 :: Dial.reply b2 :: ds) =
      .ok (true, ds) := by
  simp only [webWriteVarGo, if_pos h1, if_pos h2, webTxn_reply]
  rw [if_pos hb1, if_pos hb2]

theorem processChunk_write_then_read (t : VarTable) (idx val : Nat)
    (hidx : idx < t.vals.length) (hb : idx ≤ 255) (hval : val ≤ 4294967295) :
    processChunk t (mkFrame 82 idx 0 val ++ mkFrame 64 idx 0 0) =
      (setOutcome t idx val,
       [mkFrame 83 idx 0 0, mkFrame 65 idx 0 val], .awaiting) := by
  have hw := stepFrame_write_data t idx val hidx hb
  have hr := stepFrame_read_ok (setOutcome t idx val) idx 0 0 0 0 0 0 val
    (by rw [setOutcome_length]; exact hidx) hb
    (getD_setOutcome t idx val hidx) hval
  have hchunk : mkFrame 82 idx 0 val ++ mkFrame 64 idx 0 0 =
      82 :: idx :: 0 :: 0 :: val / 16777216 :: val / 65536 % 256 ::
        val / 256 % 256 :: val % 256 ::
          [64, idx, 0, 0, 0, 0, 0, 0] := by
    simp [mkFrame]
  rw [hchunk, processChunk_cons8, hw]
  dsimp only
  rw [processChunk_cons8, hr]
  rfl

/-! ## Claim theorems -/

/-- **C1** — Round trip: for every valid index and 32-bit value, a
successful write followed by a read with no intervening write returns the
written value.  At the table level `VarTable.set(idx, val)` then
`VarTable.get(idx)` yields `val`; at the protocol level the handler
answers a WRITE_DATA frame with WRITE_DONE leaving the table holding
`val`, and the immediately following READ_REQ frame with a READ_ACK
carrying `val`; the web client's `write_var` returns `True` on that
handshake and its `read_var` returns `val` from that READ_ACK. -/
theorem c1_write_read_roundtrip (t : VarTable) (idx val : Nat)
    (hidx : idx < t.size) (hb : idx ≤ 255) (hval : val ≤ 4294967295) :
    (t.setE idx val).bind (fun t2 => t2.get idx) = .ok val ∧
    processChunk t (mkFrame 82 idx 0 val ++ mkFrame 64 idx 0 0) =
      (setOutcome t idx val,
       [mkFrame 83 idx 0 0, mkFrame 65 idx 0 val], .awaiting) ∧
    webWriteVar idx val
      [Dial.reply (mkFrame 81 idx 0 0), Dial.reply (mkFrame 83 idx 0 0)] =
      .ok (true, []) ∧
    webReadVar [Dial.reply (mkFrame 65 idx 0 val)] idx = val := by
  have hlen : idx < t.vals.length := hidx
  have hcast : (0 : Int) ≤ (idx : Int) ∧ (idx : Int) ≤ 255 :=
    ⟨Int.natCast_nonneg _, by exact_mod_cast hb⟩
  have hvcast : (0 : Int) ≤ (val : Int) ∧ (val : Int) ≤ 4294967295 :=
    ⟨Int.natCast_nonneg _, by exact_mod_cast hval⟩
  refine ⟨setE_get_roundtrip t idx val hlen,
    processChunk_write_then_read t idx val hlen hb hval, ?_, ?_⟩
  · show webWriteVarGo (idx : Int) (val : Int) 5 _ = .ok (true, [])
    exact webWriteVarGo_success idx val 4 _ _ [] hcast hvcast
      ⟨mkFrame_length 81 idx 0 0, by rw [unpackBB_mkFrame]⟩
      ⟨mkFrame_length 83 idx 0 0, by rw [unpackBB_mkFrame]⟩
  · rw [webReadVar, if_pos hcast]
    simp [unpackBBHI_mkFrame]

/-- Witness for **C1** at the spec's concrete scenario: table of 100 zeroed
registers, `writeVar(11, 7500)` then `readVar(11)`. -/
theorem c1_witness :
    (11 < (VarTable.init 100).size ∧ 11 ≤ 255 ∧ 7500 ≤ 4294967295) ∧
    (((VarTable.init 100).setE 11 7500).bind (fun t2 => t2.get 11) = .ok 7500 ∧
     processChunk (VarTable.init 100) (mkFrame 82 11 0 7500 ++ mkFrame 64 11 0 0) =
       (setOutcome (VarTable.init 100) 11 7500,
        [mkFrame 83 11 0 0, mkFrame 65 11 0 7500], .awaiting) ∧
     webWriteVar 11 7500
       [Dial.reply (mkFrame 81 11 0 0), Dial.reply (mkFrame 83 11 0 0)] =
       .ok (true, []) ∧
     webReadVar [Dial.reply (mkFrame 65 11 0 7500)] 11 = 7500) :=
  ⟨⟨by decide, by decide, by decide⟩,
   c1_write_read_roundtrip (VarTable.init 100) 11 7500 (by decide) (by decide) (by decide)⟩

/-- **C2** (amended) — An out-of-range READ_REQ does not make the handler
reply at all: `VarTable.get` raises `IndexError` (it has no bounds check
and the index, an unsigned byte, is past the end of the list), the
exception aborts the frame loop with no READ_ACK written, the table is
unchanged, and any later frames of the stream are not processed.  The
exception is confined to this one connection (the coroutine's `finally`
closes it), and no aliased register value is ever served for such an
index; but the claimed "READ_ACK carrying value 0 (or an explicit error)"
reply is never sent. -/
theorem c2_read_oob_errors (t : VarTable) (idx : Nat) (rest : List Nat)
    (h1 : t.size ≤ idx) :
    processChunk t (mkFrame 64 idx 0 0 ++ rest) =
      (t, [], .errored "IndexError: list index out of range") := by
  have hs := stepFrame_read_oob t idx 0 0 0 0 0 0 h1
  have hchunk : mkFrame 64 idx 0 0 ++ rest =
      64 :: idx :: 0 :: 0 :: 0 :: 0 :: 0 :: 0 :: rest := by
    simp [mkFrame]
  rw [hchunk, processChunk_cons8, hs]

/-- **C2** counterexample — the spec's scenario `readVar(150)` against the
server's 100-register table: the handler produces *no* reply frame (the
claim requires a READ_ACK carrying 0 or an explicit error reply) and ends
in the propagated `IndexError`. -/
theorem c2_counterexample :
    processChunk (VarTable.init 100) (mkFrame 64 150 0 0) =
      (VarTable.init 100, [], .errored "IndexError: list index out of range") := by
  decide

/-- Witness for the amended **C2**: index 150 on the 100-register table,
with a further valid frame behind it that is never processed. -/
theorem c2_witness :
    (VarTable.init 100).size ≤ 150 ∧
    processChunk (VarTable.init 100) (mkFrame 64 150 0 0 ++ mkFrame 64 3 0 0) =
      (VarTable.init 100, [], .errored "IndexError: list index out of range") :=
  ⟨by decide, c2_read_oob_errors (VarTable.init 100) 150 (mkFrame 64 3 0 0) (by decide)⟩

/-- **C3** (amended) — `VarTable.set` rejects every out-of-range index with
`IndexError`.  `VarTable.get`, however, has no bounds check of its own:
it raises `IndexError` only for `idx ≥ size` or `idx < -size`, and for
`-size ≤ idx < 0` it silently aliases register `idx + size` (Python list
semantics).  For `idx` in `[0, size)` neither operation raises. -/
theorem c3_bounds_behavior (t : VarTable) (idx val : Int) :
    (idx < 0 ∨ (t.size : Int) ≤ idx →
       t.set idx val = .error "IndexError: Index out of range") ∧
    ((t.size : Int) ≤ idx ∨ idx < -(t.size : Int) →
       t.get idx = .error "IndexError: list index out of range") ∧
    (-(t.size : Int) ≤ idx → idx < 0 →
       t.get idx = t.get (idx + t.size)) ∧
    (0 ≤ idx → idx < (t.size : Int) →
       (t.get idx).isOk = true ∧ (t.set idx val).isOk = true) := by
  refine ⟨fun h => set_oob t idx val h, fun h => get_oob t idx h,
    fun ha hb => get_alias t idx ha hb, fun ha hb => ⟨?_, ?_⟩⟩
  · lift idx to Nat using ha with n
    rw [get_in_range t n (by exact_mod_cast hb)]
    rfl
  · rw [VarTable.set, if_pos ⟨ha, hb⟩]
    split_ifs <;> rfl

/-- **C3** counterexample — `get(-1)` on a 3-register table does not fail:
it returns the value of register 2, a silently aliased index, where the
claim requires an `OutOfRange` failure for every index outside
`[0, size)`. -/
theorem c3_counterexample :
    VarTable.get { vals := [5, 6, 7], onChangeSet := false } (-1) = .ok 7 := by
  decide

/-- Witness for the amended **C3**: `get(-2)` aliases `get(1)` on a
3-register table. -/
theorem c3_witness :
    VarTable.get { vals := [5, 6, 7], onChangeSet := false } (-2) =
      VarTable.get { vals := [5, 6, 7], onChangeSet := false } (-2 + 3) :=
  (c3_bounds_behavior { vals := [5, 6, 7], onChangeSet := false } (-2) 0).2.2.1
    (by decide) (by decide)

/-- **C10** — Frame conditions of the table operations: a successful
in-range `set` changes at most the entry at `idx` (every other register
keeps its value), never changes the table's length or its hook; the
equal-value fast path returns with the table identical and no events; an
out-of-range `set` fails before mutating anything. -/
theorem c10_frame_conditions (t : VarTable) (idx val : Int)
    (h1 : 0 ≤ idx) (h2 : idx < (t.size : Int)) :
    (∀ t2 evs, t.set idx val = .ok (t2, evs) →
       t2.vals.length = t.vals.length ∧
       t2.onChangeSet = t.onChangeSet ∧
       ∀ j : Nat, j < t.vals.length → j ≠ idx.toNat →
         t2.vals.getD j 0 = t.vals.getD j 0) ∧
    (t.vals.getD idx.toNat 0 = val → t.set idx val = .ok (t, [])) ∧
    (∀ idx2 val2 : Int, idx2 < 0 ∨ (t.size : Int) ≤ idx2 →
       t.set idx2 val2 = .error "IndexError: Index out of range") := by
  refine ⟨?_, fun he => set_fast_path t idx val h1 h2 he,
    fun idx2 val2 h => set_oob t idx2 val2 h⟩
  intro t2 evs hset
  rcases eq_or_ne (t.vals.getD idx.toNat 0) val with he | he
  · rw [set_fast_path t idx val h1 h2 he] at hset
    obtain ⟨rfl, -⟩ : t = t2 ∧ [] = evs := by
      have := (Except.ok.injEq _ _).mp hset
      exact ⟨congrArg Prod.fst this, congrArg Prod.snd this⟩
    exact ⟨rfl, rfl, fun j hj hne => rfl⟩
  · rw [set_changed t idx val h1 h2 he] at hset
    have ht2 : t2 = { t with vals := t.vals.set idx.toNat val } := by
      have := (Except.ok.injEq _ _).mp hset
      exact (congrArg Prod.fst this).symm
    subst ht2
    refine ⟨by simp, rfl, fun j hj hne => ?_⟩
    rw [List.getD_eq_getElem _ _ (by simpa using hj), List.getD_eq_getElem _ _ hj]
    exact List.getElem_set_of_ne (fun hcon => hne hcon.symm) val (by simpa using hj)

/-- Witness for **C10**: on the table `[5, 6, 7]` a valid `set` request for
index 1 is covered, and the out-of-range part applied at index 5 fails. -/
theorem c10_witness :
    VarTable.set { vals := [5, 6, 7], onChangeSet := false } 5 1 =
      .error "IndexError: Index out of range" :=
  (c10_frame_conditions { vals := [5, 6, 7], onChangeSet := false } 1 9
    (by decide) (by decide)).2.2 5 1 (by decide)

/-- **C7** — With the `on_change` hook set and a valid index: the callback
fires exactly when the new value differs from the old one (the equal-value
fast path performs no write and no callback), it receives `(idx, val)`,
and in the event order of one `set` call it comes after the committed
write and after the lock release — any decomposition of the trace around
the callback has both the write and the release strictly before it. -/
theorem c7_onchange_semantics (t : VarTable) (idx val : Int)
    (h1 : 0 ≤ idx) (h2 : idx < (t.size : Int)) (hook : t.onChangeSet = true) :
    (t.vals.getD idx.toNat 0 = val → t.set idx val = .ok (t, [])) ∧
    (t.vals.getD idx.toNat 0 ≠ val →
       t.set idx val = .ok ({ t with vals := t.vals.set idx.toNat val },
         [Ev.acquire, Ev.write idx val, Ev.release, Ev.callback idx val])) ∧
    (∀ t2 evs, t.set idx val = .ok (t2, evs) →
       ((Ev.callback idx val ∈ evs) ↔ t.vals.getD idx.toNat 0 ≠ val) ∧
       (∀ pre post, evs = pre ++ Ev.callback idx val :: post →
          Ev.release ∈ pre ∧ Ev.write idx val ∈ pre)) := by
  have hchanged : t.vals.getD idx.toNat 0 ≠ val →
      t.set idx val = .ok ({ t with vals := t.vals.set idx.toNat val },
        [Ev.acquire, Ev.write idx val, Ev.release, Ev.callback idx val]) := by
    intro he
    rw [set_changed t idx val h1 h2 he, hook]
    rfl
  refine ⟨fun he => set_fast_path t idx val h1 h2 he, hchanged, ?_⟩
  intro t2 evs hset
  rcases eq_or_ne (t.vals.getD idx.toNat 0) val with he | he
  · rw [set_fast_path t idx val h1 h2 he] at hset
    have hevs : evs = [] := by
      have := (Except.ok.injEq _ _).mp hset
      exact (congrArg Prod.snd this).symm
    subst hevs
    refine ⟨iff_of_false (List.not_mem_nil _) (not_not_intro he), fun pre post hcon => ?_⟩
    exact absurd hcon.symm (by simp)
  · rw [hchanged he] at hset
    have hevs : evs =
        [Ev.acquire, Ev.write idx val, Ev.release, Ev.callback idx val] := by
      have := (Except.ok.injEq _ _).mp hset
      exact (congrArg Prod.snd this).symm
    subst hevs
    refine ⟨iff_of_true (by simp) he, fun pre post heq => ?_⟩
    rcases pre with _ | ⟨p0, pre⟩
    · simp at heq
    rcases pre with _ | ⟨p1, pre⟩
    · simp at heq
    rcases pre with _ | ⟨p2, pre⟩
    · simp at heq
    rcases pre with _ | ⟨p3, pre⟩
    · obtain ⟨rfl, rfl, rfl, -⟩ := heq
      simp
    · rcases pre with _ | ⟨p4, pre⟩
      · simp at heq
      · simp at heq

/-- Witness for **C7**: on `[0, 0]` with the hook set, `set(1, 5)` commits
the write and fires the callback last, outside the lock. -/
theorem c7_witness :
    VarTable.set { vals := [0, 0], onChangeSet := true } 1 5 =
      .ok ({ vals := [0, 5], onChangeSet := true },
        [Ev.acquire, Ev.write 1 5, Ev.release, Ev.callback 1 5]) :=
  (c7_onchange_semantics { vals := [0, 0], onChangeSet := true } 1 5
    (by decide) (by decide) rfl).2.1 (by decide)

/-- **C8** (amended) — For arguments within the field widths the encoder
produces exactly 8 bytes in the big-endian layout
`command:uint8, index:uint8, reserved:uint16, value:uint32` (decoding the
frame recovers the arguments).  But out-of-range arguments are *rejected*
with `struct.error`, not truncated modulo the field width: Python's
`struct.pack` validates every field. -/
theorem c8_encoder_exact (cmd idx r v : Nat)
    (h1 : cmd ≤ 255) (h2 : idx ≤ 255) (h3 : r ≤ 65535) (h4 : v ≤ 4294967295) :
    structPackBBHI cmd idx r v = .ok (mkFrame cmd idx r v) ∧
    (mkFrame cmd idx r v).length = 8 ∧
    unpackBBHI (mkFrame cmd idx r v) 0 = (cmd, idx, r, v) ∧
    (∀ idx2 : Int, idx2 < 0 ∨ 255 < idx2 →
       structPackBBHI cmd idx2 r v =
         .error "struct.error: ubyte format requires 0 <= number <= 255") ∧
    (∀ v2 : Int, v2 < 0 ∨ 4294967295 < v2 →
       structPackBBHI cmd idx r v2 =
         .error "struct.error: 'I' format requires 0 <= number <= 4294967295") := by
  have c1 : (0 : Int) ≤ cmd ∧ (cmd : Int) ≤ 255 :=
    ⟨Int.natCast_nonneg _, by exact_mod_cast h1⟩
  have c2 : (0 : Int) ≤ idx ∧ (idx : Int) ≤ 255 :=
    ⟨Int.natCast_nonneg _, by exact_mod_cast h2⟩
  have c3 : (0 : Int) ≤ r ∧ (r : Int) ≤ 65535 :=
    ⟨Int.natCast_nonneg _, by exact_mod_cast h3⟩
  refine ⟨structPackBBHI_ok cmd idx r v h1 h2 h3 h4, mkFrame_length cmd idx r v,
    unpackBBHI_mkFrame cmd idx r v, ?_, ?_⟩
  · intro idx2 h
    rw [structPackBBHI, if_pos c1, if_neg (by omega)]
  · intro v2 h
    rw [structPackBBHI, if_pos c1, if_pos c2, if_pos c3, if_neg (by omega)]

/-- **C8** counterexample — `VarTable.encode_change` with index 256: the
claim says the index is truncated to one byte (the frame would carry index
0); `struct.pack` instead raises `struct.error`. -/
theorem c8_counterexample :
    VarTable.encode_change 256 5 =
      .error "struct.error: ubyte format requires 0 <= number <= 255" := by
  decide

/-- Witness for the amended **C8**: the change-broadcast frame
`(0x30, 2, 5)` is encoded exactly, and index 300 is rejected. -/
theorem c8_witness :
    structPackBBHI 48 2 0 5 = .ok (mkFrame 48 2 0 5) ∧
    structPackBBHI 48 300 0 5 =
      .error "struct.error: ubyte format requires 0 <= number <= 255" :=
  ⟨(c8_encoder_exact 48 2 0 5 (by decide) (by decide) (by decide) (by decide)).1,
   (c8_encoder_exact 48 2 0 5 (by decide) (by decide) (by decide)
     (by decide)).2.2.2.1 300 (by decide)⟩

/-- **C4** (amended) — The two `read_var` implementations differ from the
claim: the web client's `read_var` performs exactly one dial (a failure
returns `-1` immediately even when a retry would have succeeded — there is
no retry loop), never raises, and returns the value field of a 0x41 reply;
the Visual_ob client's `read_var` has no exception handler at all and
propagates a communication failure to its caller instead of returning
`-1`. -/
theorem c4_read_var_behavior (idx : Int) (ds : List Dial) (v i2 r : Nat)
    (h0 : 0 ≤ idx) (h1 : idx ≤ 255) :
    webReadVar (Dial.fail :: ds) idx = -1 ∧
    webReadVar [] idx = -1 ∧
    webReadVar (Dial.reply (mkFrame 65 i2 r v) :: ds) idx = v ∧
    visualReadVar Dial.fail idx = .error "ConnectionError" ∧
    visualReadVar (Dial.reply (mkFrame 65 i2 r v)) idx = .ok v := by
  refine ⟨?_, ?_, ?_, ?_, ?_⟩ <;>
    simp [webReadVar, visualReadVar, h0, h1, unpackBBHI_mkFrame]

/-- **C4** counterexample — `read_var` of `src/Visual_ob/Communication.py`
raises on a failed dial (the claim says it never raises and returns `-1`),
and `read_var` of `src/web/Communication.py` returns `-1` after its single
attempt even though a second attempt would have returned 7 (the claim says
it retries up to RETRY_MAX attempts). -/
theorem c4_counterexample :
    visualReadVar Dial.fail 3 = .error "ConnectionError" ∧
    webReadVar [Dial.fail, Dial.reply (mkFrame 65 3 0 7)] 3 = -1 := by
  decide

/-- Witness for the amended **C4** at index 3, value 7. -/
theorem c4_witness :
    webReadVar [Dial.fail] 3 = -1 ∧
    webReadVar [] 3 = -1 ∧
    webReadVar [Dial.reply (mkFrame 65 3 0 7)] 3 = 7 ∧
    visualReadVar Dial.fail 3 = .error "ConnectionError" ∧
    visualReadVar (Dial.reply (mkFrame 65 3 0 7)) 3 = .ok 7 :=
  c4_read_var_behavior 3 [] 7 3 0 (by decide) (by decide)

theorem visualTxn_reply (b : List Nat) (ds : List Dial) :
    visualTxn (Dial.reply b :: ds) = (b, ds) := rfl

theorem visualWriteVarGo_success (idx val : Int) (n : Nat) (b1 b2 : List Nat)
    (ds : List Dial)
    (h1 : 0 ≤ idx ∧ idx ≤ 255) (h2 : 0 ≤ val ∧ val ≤ 4294967295)
    (hb1 : b1.length = 8 ∧ (unpackBB b1 0).1 = 81)
    (hb2 : b2.length = 8 ∧ (unpackBB b2 0).1 = 83) :
    visualWriteVarGo idx val (n + 1) (Dial.reply b1 :: Dial.reply b2 :: ds) =
      .ok (none, ds) := by
  simp only [visualWriteVarGo, if_pos h1, if_pos h2, visualTxn_reply]
  rw [if_pos hb1, if_pos hb2]

theorem webWriteVarGo_bad_idx (idx val : Int) (n : Nat) (ds : List Dial)
    (h : ¬ (0 ≤ idx ∧ idx ≤ 255)) :
    webWriteVarGo idx val (n + 1) ds =
      .error "struct.error: ubyte format requires 0 <= number <= 255" := by
  simp only [webWriteVarGo, if_neg h]

/-- **C5** (amended) — The web client's `write_var` does return a boolean:
it never raises for in-range arguments, returns `true` exactly after an
8-byte 0x53 WRITE_DONE reply (a dial list containing no such reply can
never produce `true`), and returns `false` after exhausting its retry
loop against an unreachable server; an out-of-range index, however, makes
`struct.pack` raise out of any handler.  The Visual_ob client's
`write_var` runs the same handshake but is declared `-> None` and returns
`None` on every path — even a fully successful handshake yields no
boolean. -/
theorem c5_write_var_behavior (idx val : Int) (ds : List Dial)
    (h1 : 0 ≤ idx ∧ idx ≤ 255) (h2 : 0 ≤ val ∧ val ≤ 4294967295) :
    (webWriteVar idx val ds).isOk = true ∧
    ((∀ d ∈ ds, d = Dial.fail) →
       (webWriteVar idx val ds).map Prod.fst = .ok false) ∧
    ((∀ d ∈ ds, isDoneReply d = false) →
       (webWriteVar idx val ds).map Prod.fst ≠ .ok true) ∧
    (∀ b1 b2 ds2, b1.length = 8 → (unpackBB b1 0).1 = 81 →
       b2.length = 8 → (unpackBB b2 0).1 = 83 →
       webWriteVar idx val (Dial.reply b1 :: Dial.reply b2 :: ds2) =
           .ok (true, ds2) ∧
       visualWriteVar idx val (Dial.reply b1 :: Dial.reply b2 :: ds2) =
           .ok (none, ds2)) ∧
    (∀ idx2 : Int, idx2 < 0 ∨ 255 < idx2 →
       webWriteVar idx2 val ds =
         .error "struct.error: ubyte format requires 0 <= number <= 255") := by
  refine ⟨webWriteVarGo_ok idx val RETRY_MAX ds h1 h2,
    fun h => webWriteVarGo_all_fail idx val RETRY_MAX ds h1 h,
    fun h => webWriteVarGo_no_done idx val RETRY_MAX ds h,
    fun b1 b2 ds2 hl1 hc1 hl2 hc2 =>
      ⟨webWriteVarGo_success idx val 4 b1 b2 ds2 h1 h2 ⟨hl1, hc1⟩ ⟨hl2, hc2⟩,
       visualWriteVarGo_success idx val 4 b1 b2 ds2 h1 h2 ⟨hl1, hc1⟩ ⟨hl2, hc2⟩⟩,
    fun idx2 h => webWriteVarGo_bad_idx idx2 val 4 ds (by omega)⟩

/-- **C5** counterexample — a complete, successful four-step handshake
(0x51 then 0x53 replies): `write_var` of `src/Visual_ob/Communication.py`
returns `None`, not the boolean `true` the claim requires. -/
theorem c5_counterexample :
    visualWriteVar 3 7
      [Dial.reply (mkFrame 81 3 0 0), Dial.reply (mkFrame 83 3 0 0)] =
      .ok (none, []) := by
  decide

/-- Witness for the amended **C5** at `write_var(3, 7)`. -/
theorem c5_witness :
    (webWriteVar 3 7 []).isOk = true ∧
    (webWriteVar 3 7 []).map Prod.fst = .ok false ∧
    webWriteVar 3 7
      [Dial.reply (mkFrame 81 3 0 0), Dial.reply (mkFrame 83 3 0 0)] =
      .ok (true, []) ∧
    visualWriteVar 3 7
      [Dial.reply (mkFrame 81 3 0 0), Dial.reply (mkFrame 83 3 0 0)] =
      .ok (none, []) ∧
    webWriteVar 300 7 [] =
      .error "struct.error: ubyte format requires 0 <= number <= 255" := by
  have h := c5_write_var_behavior 3 7 [] (by decide) (by decide)
  have hs := h.2.2.2.1 (mkFrame 81 3 0 0) (mkFrame 83 3 0 0) []
    (by decide) (by decide) (by decide) (by decide)
  exact ⟨h.1, h.2.1 (by simp), hs.1, hs.2, h.2.2.2.2 300 (by decide)⟩

/-- **C6** (amended) — Within one received chunk the handler does process
every complete 8-byte frame, in left-to-right order (processing the
concatenation of 8-byte frames is exactly the frame-by-frame run), and a
trailing remainder of fewer than 8 bytes never affects that processing —
but the remainder is *discarded* with the chunk, not retained in any
buffer, so a frame split across two socket reads is lost rather than
reassembled. -/
theorem c6_framing (t : VarTable) (fs : List (List Nat)) (data extra : List Nat)
    (hf : ∀ f ∈ fs, f.length = 8) (h8 : data.length % 8 = 0)
    (hx : extra.length < 8) :
    processChunk t fs.flatten = runFrames t fs ∧
    processChunk t (data ++ extra) = processChunk t data :=
  ⟨processChunk_flatten fs hf t, processChunk_discard t data extra h8 hx⟩

/-- **C6** counterexample — the READ_REQ frame `[64, 3, 0, 0, 0, 0, 0, 0]`
delivered split as 3 bytes then 5 bytes: the claim requires it to be
reassembled and answered with a READ_ACK; the handler produces no reply at
all (each fragment is shorter than 8 bytes and is dropped when its read
chunk ends). -/
theorem c6_counterexample :
    handleClient (VarTable.init 100) [[64, 3, 0], [0, 0, 0, 0, 0]] =
      (VarTable.init 100, [], .closed) := by
  decide

/-- Witness for the amended **C6**: a chunk of two complete frames runs
frame by frame, and appending a 3-byte remainder to a complete frame
changes nothing. -/
theorem c6_witness :
    processChunk (VarTable.init 5) ([mkFrame 64 3 0 0, mkFrame 80 2 0 0]).flatten =
      runFrames (VarTable.init 5) [mkFrame 64 3 0 0, mkFrame 80 2 0 0] ∧
    processChunk (VarTable.init 5) (mkFrame 64 3 0 0 ++ [9, 9, 9]) =
      processChunk (VarTable.init 5) (mkFrame 64 3 0 0) :=
  c6_framing (VarTable.init 5) [mkFrame 64 3 0 0, mkFrame 80 2 0 0]
    (mkFrame 64 3 0 0) [9, 9, 9] (by decide) (by decide) (by decide)

/-- **C9** — A READ_CONFIRM (0x42) frame produces no reply and closes the
connection: the handler returns at once and no frame after it on that
connection is ever processed (the result does not depend on `rest`).  A
frame whose command byte is none of 0x40/0x42/0x50/0x52 is skipped: no
reply, no table change, and processing continues with the rest of the
stream exactly as if the frame had not been there. -/
theorem c9_confirm_and_unknown (t : VarTable) (rest : List Nat)
    (cmd idx r v : Nat)
    (hc : cmd ≠ 64 ∧ cmd ≠ 66 ∧ cmd ≠ 80 ∧ cmd ≠ 82) :
    processChunk t (mkFrame 66 idx r v ++ rest) = (t, [], .closed) ∧
    processChunk t (mkFrame cmd idx r v ++ rest) = processChunk t rest := by
  constructor
  · have hchunk : mkFrame 66 idx r v ++ rest =
        66 :: idx :: (r / 256) :: (r % 256) :: (v / 16777216) ::
          (v / 65536 % 256) :: (v / 256 % 256) :: (v % 256) :: rest := by
      simp [mkFrame]
    rw [hchunk, processChunk_cons8, stepFrame_confirm]
  · have hchunk : mkFrame cmd idx r v ++ rest =
        cmd :: idx :: (r / 256) :: (r % 256) :: (v / 16777216) ::
          (v / 65536 % 256) :: (v / 256 % 256) :: (v % 256) :: rest := by
      simp [mkFrame]
    rw [hchunk, processChunk_cons8,
      stepFrame_other t cmd idx (r / 256) (r % 256) (v / 16777216)
        (v / 65536 % 256) (v / 256 % 256) (v % 256) hc.1 hc.2.1 hc.2.2.1 hc.2.2.2]
    rfl

/-- Witness for **C9**: READ_CONFIRM followed by a READ_REQ that is never
served, and unknown command 0x99 skipped in front of the same READ_REQ. -/
theorem c9_witness :
    processChunk (VarTable.init 5) (mkFrame 66 1 0 0 ++ mkFrame 64 1 0 0) =
      (VarTable.init 5, [], .closed) ∧
    processChunk (VarTable.init 5) (mkFrame 153 1 0 0 ++ mkFrame 64 1 0 0) =
      processChunk (VarTable.init 5) (mkFrame 64 1 0 0) :=
  c9_confirm_and_unknown (VarTable.init 5) (mkFrame 64 1 0 0) 153 1 0 0
    ⟨by decide, by decide, by decide, by decide⟩
